import Mathlib

/-!
# Verification of the XML configuration parser (`js/xml-parser.js`)

Shallow embedding of the runtime configuration facade of the Raiswell
building-services site: the JavaScript value universe the parser works in,
the DOM elements it reads, the section extractors, the feature-toggle
resolver, the fallback configuration, the accessor surface, and the
`loadConfig` load paths with their observable effects.
-/

namespace Raiswell

/-- A JavaScript runtime value as the configuration parser manipulates them:
`null`/`undefined` absence is modelled by `Option` at use sites, `null`
stored in a field (e.g. a missing attribute) is `JVal.null`; numbers are
rationals (no NaN arithmetic is ever performed on config values, `nan`
marks a failed numeric parse); objects are insertion-ordered key/value
lists with unique keys. -/
inductive JVal where
  | null : JVal
  | nan : JVal
  | bool : Bool → JVal
  | num : Rat → JVal
  | str : String → JVal
  | arr : List JVal → JVal
  | obj : List (String × JVal) → JVal

/-- JavaScript truthiness (`if (v)`) on the embedded value universe:
`null`, `NaN`, `false`, `0`, and `""` are falsy; every object and array
is truthy. -/
def truthy : JVal → Bool
  | .null => false
  | .nan => false
  | .bool b => b
  | .num q => q ≠ 0
  | .str s => s ≠ ""
  | .arr _ => true
  | .obj _ => true

/-- First binding of a key in an object's field list (JS property lookup;
field lists are kept duplicate-free by `setField`). -/
def lookupField : List (String × JVal) → String → Option JVal
  | [], _ => none
  | (k, v) :: rest, key => if k = key then some v else lookupField rest key

/-- JS property read `v[key]` (string key): `undefined` (= `none`) on
non-objects and on absent keys. -/
def getProp : JVal → String → Option JVal
  | .obj fields, key => lookupField fields key
  | _, _ => none

/-- JS assignment `o[key] = v`: overwrite in place when the key exists,
append otherwise (insertion order preserved). -/
def setField : List (String × JVal) → String → JVal → List (String × JVal)
  | [], key, v => [(key, v)]
  | (k, w) :: rest, key, v =>
      if k = key then (k, v) :: rest else (k, w) :: setField rest key v

/-- `x || d` on a possibly-`undefined` JS value: the value when truthy,
else the default. -/
def jsOrDefault (v : Option JVal) (d : JVal) : JVal :=
  match v with
  | some x => if truthy x then x else d
  | none => d

/-- A DOM element as the parser sees it: tag name, attribute list,
child elements in document order, and the element's own text. -/
inductive Elem where
  | mk (tag : String) (attrs : List (String × String)) (children : List Elem)
      (ownText : String)

/-- `element.tagName`. -/
def Elem.tag : Elem → String
  | .mk t _ _ _ => t

/-- The element's attribute list. -/
def Elem.attrs : Elem → List (String × String)
  | .mk _ a _ _ => a

/-- `element.children` (child elements, document order). -/
def Elem.children : Elem → List Elem
  | .mk _ _ c _ => c

/-- The text directly inside the element (before any child element). -/
def Elem.ownText : Elem → String
  | .mk _ _ _ s => s

/-- `element.getAttribute(name)`: the attribute's string value, or
`null` (= `none`) when absent. -/
def Elem.getAttribute (e : Elem) (name : String) : Option String :=
  go e.attrs
where
  go : List (String × String) → Option String
    | [] => none
    | (k, v) :: rest => if k = name then some v else go rest

mutual

/-- `element.textContent`: the element's own text followed by the text of
its descendants, in document order. -/
def Elem.textContent : Elem → String
  | .mk _ _ children text => text ++ textContentList children

/-- Concatenated `textContent` of a list of sibling elements. -/
def textContentList : List Elem → String
  | [] => ""
  | c :: rest => Elem.textContent c ++ textContentList rest

end

mutual

/-- `querySelector` restricted to tag-name selectors, searching a sibling
list and their subtrees in document order. -/
def querySelectorList : List Elem → String → Option Elem
  | [], _ => none
  | c :: rest, sel =>
      if c.tag = sel then some c
      else
        match querySelectorSub c sel with
        | some e => some e
        | none => querySelectorList rest sel

/-- First descendant (strictly below `e`) matching the tag selector. -/
def querySelectorSub : Elem → String → Option Elem
  | .mk _ _ children _, sel => querySelectorList children sel

end

/-- `parent.querySelector(sel)` for a tag-name selector: the first
descendant element with that tag in document order, or `null`. -/
def Elem.querySelector (e : Elem) (sel : String) : Option Elem :=
  querySelectorList e.children sel

mutual

/-- `querySelectorAll` restricted to tag-name selectors, over a sibling
list, document order. -/
def querySelectorAllList : List Elem → String → List Elem
  | [], _ => []
  | c :: rest, sel =>
      (if c.tag = sel then [c] else []) ++ querySelectorAllSub c sel
        ++ querySelectorAllList rest sel

/-- All descendants of `e` matching the tag selector, document order. -/
def querySelectorAllSub : Elem → String → List Elem
  | .mk _ _ children _, sel => querySelectorAllList children sel

end

/-- `parent.querySelectorAll(sel)` for a tag-name selector. -/
def Elem.querySelectorAll (e : Elem) (sel : String) : List Elem :=
  querySelectorAllList e.children sel

/-- ASCII whitespace as stripped by JS `String.prototype.trim`. -/
def isJsWhitespace (c : Char) : Bool :=
  c = ' ' ∨ c = '\t' ∨ c = '\n' ∨ c = '\r' ∨ c = '\x0b' ∨ c = '\x0c'

/-- JS `s.trim()`: leading and trailing whitespace removed. -/
def jsTrim (s : String) : String :=
  String.mk (((s.data.dropWhile isJsWhitespace).reverse.dropWhile
    isJsWhitespace).reverse)

/-- `getTextContent(parent, selector)` helper of `XMLConfigParser`:
trimmed text of the first matching descendant, or `""`. -/
def getTextContent (parent : Elem) (selector : String) : String :=
  match parent.querySelector selector with
  | some element => jsTrim element.textContent
  | none => ""

/-! ## Feature-toggle resolver (`isFeatureEnabled`, xml-parser.js lines 95-122 /
part_006 lines 106-133, non-compiled path) -/

/-- Character-list worker for `splitDot`: `acc` holds the current segment
reversed. -/
def splitDotAux : List Char → List Char → List String
  | [], acc => [String.mk acc.reverse]
  | c :: rest, acc =>
      if c = '.' then String.mk acc.reverse :: splitDotAux rest []
      else splitDotAux rest (c :: acc)

/-- JS `featurePath.split('.')`: dot-separated segments, never empty
(`"".split('.')` is `[""]`). -/
def splitDot (s : String) : List String :=
  splitDotAux s.data []

/-- The final check of `isFeatureEnabled`:
`current === 'true' || current === true`. -/
def jsEqTrueLit : JVal → Bool
  | .str s => s = "true"
  | .bool b => b
  | _ => false

/-- The terminal evaluation of the toggle walk: an object with an
`enabled` property yields `enabled === 'true' || enabled === true`,
anything else yields `current === 'true' || current === true`. -/
def evalToggleNode (cur : JVal) : Bool :=
  match cur with
  | .obj fields =>
      match lookupField fields "enabled" with
      | some v => jsEqTrueLit v
      | none => jsEqTrueLit (.obj fields)
  | v => jsEqTrueLit v

/-- The `for (const part of pathParts)` loop of `isFeatureEnabled`:
a falsy `current[part]` (absent key included) returns the default `true`;
otherwise descend and finally evaluate the node reached. -/
def walkToggles : JVal → List String → Bool
  | cur, [] => evalToggleNode cur
  | cur, part :: rest =>
      match getProp cur part with
      | none => true
      | some v => if truthy v then walkToggles v rest else true

/-- `XMLConfigParser.isFeatureEnabled(featurePath)` on the XML (non-compiled)
path, with `this.config` as explicit argument (`none` = still `null`). -/
def isFeatureEnabled (config : Option JVal) (featurePath : String) : Bool :=
  match config with
  | none => true
  | some c =>
      if ¬ truthy c then true
      else
        match getProp c "feature-toggles" with
        | none => true
        | some t =>
            if ¬ truthy t then true
            else walkToggles t (splitDot featurePath)

/-! ## `parseFeatureToggles` (part_006 lines 506-526) -/

mutual

/-- The inner `parseNode` of `parseFeatureToggles`: children with child
elements become nested toggle objects (their own `enabled` attribute is
dropped), leaf children become `{ enabled: attr === 'true' }`. -/
def parseToggleNode (e : Elem) : JVal :=
  match e with
  | .mk _ _ children _ => .obj (parseToggleChildren children [])
termination_by sizeOf e

/-- The `for (let child of node.children)` loop of `parseNode`, with the
accumulated result object. -/
def parseToggleChildren (l : List Elem) (acc : List (String × JVal)) :
    List (String × JVal) :=
  match l with
  | [] => acc
  | c :: rest =>
      let v :=
        if c.children.isEmpty then
          .obj [("enabled", .bool (c.getAttribute "enabled" == some "true"))]
        else parseToggleNode c
      parseToggleChildren rest (setField acc c.tag v)
termination_by sizeOf l

end

/-- `XMLConfigParser.parseFeatureToggles(togglesNode)`: `{}` when the
section is absent. -/
def parseFeatureToggles (togglesNode : Option Elem) : JVal :=
  match togglesNode with
  | none => .obj []
  | some n => parseToggleNode n

/-! ## Generic nested extractor (`parseNestedContent`, part_006 lines 659-686)

The extractor can throw in JavaScript: when siblings share a tag name and
an earlier same-tag sibling was a leaf, `result[tagName].push` is called
on a string (a `TypeError`). The embedding therefore returns
`Except String JVal`; every thrown JS exception is an `Except.error`. -/

/-- A stored attribute value: `null` when the attribute is absent. -/
def jvalOfAttr : Option String → JVal
  | some s => .str s
  | none => .null

/-- JS object-key coercion for a possibly-`null` attribute used as a key
(`pages[null]` stores under the key `"null"`). -/
def attrKey : Option String → String
  | some s => s
  | none => "null"

mutual

/-- `XMLConfigParser.parseNestedContent(node)`: recursive generic
extractor for free-form sections. -/
def parseNestedContent (e : Elem) : Except String JVal :=
  match e with
  | .mk _ _ children _ => do
      let fields ← pncChildren children children []
      pure (.obj fields)
termination_by 2 * sizeOf e

/-- The `for (let child of node.children)` loop of `parseNestedContent`:
`siblings` is the fixed `node.children` used for the same-tag filter,
`rest` the children still to process, `acc` the result object so far. -/
def pncChildren (siblings rest : List Elem) (acc : List (String × JVal)) :
    Except String (List (String × JVal)) :=
  match rest with
  | [] => .ok acc
  | child :: rest' =>
      let tagName := child.tag
      if child.children.isEmpty then
        -- simple text content leaf
        pncChildren siblings rest'
          (setField acc tagName (.str (jsTrim child.textContent)))
      else
        let similar := siblings.filter (fun c => c.tag == tagName)
        if similar.length > 1 then
          -- `if (!result[tagName]) result[tagName] = [];` then push
          let acc1 :=
            match lookupField acc tagName with
            | some v => if truthy v then acc else setField acc tagName (.arr [])
            | none => setField acc tagName (.arr [])
          match lookupField acc1 tagName with
          | some (.arr xs) => do
              let v ← parseNestedContent child
              pncChildren siblings rest' (setField acc1 tagName (.arr (xs ++ [v])))
          | _ => .error "TypeError: result[tagName].push is not a function"
        else do
          let v ← parseNestedContent child
          pncChildren siblings rest' (setField acc tagName v)
termination_by 2 * sizeOf rest + 1

end

/-- The child loop of `parsePageContent`: nested children go through the
generic extractor, leaves become trimmed text. -/
def pageContentChildren (rest : List Elem) (acc : List (String × JVal)) :
    Except String (List (String × JVal)) :=
  match rest with
  | [] => .ok acc
  | child :: rest' =>
      if child.children.isEmpty then
        pageContentChildren rest'
          (setField acc child.tag (.str (jsTrim child.textContent)))
      else do
        let v ← parseNestedContent child
        pageContentChildren rest' (setField acc child.tag v)

/-- `XMLConfigParser.parsePageContent(pageNode)` (part_006 lines 635-654):
starts from `{ name: pageNode.getAttribute('name') }` and adds every
child, nested ones through the generic extractor. -/
def parsePageContent (pageNode : Elem) : Except String JVal := do
  let fields ← pageContentChildren pageNode.children
    [("name", jvalOfAttr (pageNode.getAttribute "name"))]
  pure (.obj fields)

/-- The `forEach` over `querySelectorAll('page')` in `parsePages`. -/
def pagesLoop (rest : List Elem) (acc : List (String × JVal)) :
    Except String (List (String × JVal)) :=
  match rest with
  | [] => .ok acc
  | pageNode :: rest' => do
      let v ← parsePageContent pageNode
      pagesLoop rest' (setField acc (attrKey (pageNode.getAttribute "name")) v)

/-- `XMLConfigParser.parsePages(pagesNode)`: `{}` when the section is
absent, else one entry per descendant `page` element. -/
def parsePages (pagesNode : Option Elem) : Except String JVal :=
  match pagesNode with
  | none => .ok (.obj [])
  | some n => do
      let fields ← pagesLoop (n.querySelectorAll "page") []
      pure (.obj fields)

/-! ## Fixed-schema section extractors (part_006 lines 529-625 and 836-1267) -/

/-- Numeric value of a digit string. -/
def digitsVal (s : String) : Nat :=
  s.foldl (fun n c => n * 10 + (c.toNat - '0'.toNat)) 0

/-- `parseInt(s)` (radix 10) on a string: leading whitespace skipped,
optional sign, longest leading digit run; `NaN` when no digits. -/
def jsParseInt (s : String) : JVal :=
  let t := String.mk (s.data.dropWhile isJsWhitespace)
  let (sign, body) : Rat × String :=
    if t.startsWith "-" then (-1, t.drop 1)
    else if t.startsWith "+" then (1, t.drop 1)
    else (1, t)
  let digits := body.takeWhile Char.isDigit
  if digits.isEmpty then .nan else .num (sign * (digitsVal digits : Rat))

/-- `parseFloat(s)` on a string, for decimal literals (the only numeric
shape occurring in configuration documents): leading whitespace skipped,
optional sign, digits with optional fractional part; `NaN` when no
digits at all. -/
def jsParseFloat (s : String) : JVal :=
  let t := String.mk (s.data.dropWhile isJsWhitespace)
  let (sign, body) : Rat × String :=
    if t.startsWith "-" then (-1, t.drop 1)
    else if t.startsWith "+" then (1, t.drop 1)
    else (1, t)
  let intPart := body.takeWhile Char.isDigit
  let afterInt := body.drop intPart.length
  let fracPart :=
    if afterInt.startsWith "." then (afterInt.drop 1).takeWhile Char.isDigit
    else ""
  if intPart.isEmpty ∧ fracPart.isEmpty then .nan
  else
    .num (sign * ((digitsVal intPart : Rat)
      + (digitsVal fracPart : Rat) / ((10 : Rat) ^ fracPart.length)))

/-- `v || d` on JS values that are present (not `undefined`). -/
def jsOrVal (v d : JVal) : JVal :=
  if truthy v then v else d

/-- `s || d` on strings (`""` is the only falsy string). -/
def strOr (s d : String) : String :=
  if s.isEmpty then d else s

/-- A loop of the shape
`for (child of node.children) o[child.tagName] = child.textContent.trim()`. -/
def textMapOfChildren (l : List Elem) (acc : List (String × JVal)) :
    List (String × JVal) :=
  match l with
  | [] => acc
  | c :: rest => textMapOfChildren rest (setField acc c.tag (.str (jsTrim c.textContent)))

/-- `XMLConfigParser.parseDesign(designNode)`. -/
def parseDesign (designNode : Option Elem) : JVal :=
  match designNode with
  | none => .obj []
  | some n =>
      let colors : JVal :=
        match n.querySelector "colors" with
        | some cn => .obj (textMapOfChildren cn.children [])
        | none => .obj []
      let fonts : JVal :=
        match n.querySelector "fonts" with
        | some fn =>
            .obj [("heading", .str (getTextContent fn "heading")),
                  ("body", .str (getTextContent fn "body")),
                  ("baseSize", .str (getTextContent fn "base-size"))]
        | none => .obj []
      .obj [("theme", .str (getTextContent n "theme")),
            ("colors", colors), ("fonts", fonts)]

/-- `XMLConfigParser.parseTopBar(topBarNode)`. -/
def parseTopBar (topBarNode : Option Elem) : JVal :=
  match topBarNode with
  | none => .obj []
  | some n =>
      .obj [("enabled", .bool (getTextContent n "enabled" = "true")),
            ("showOnMobile", .bool (getTextContent n "show-on-mobile" = "true")),
            ("phoneIcon", .bool (getTextContent n "phone-icon" = "true")),
            ("emailIcon", .bool (getTextContent n "email-icon" = "true")),
            ("socialPosition", .str (getTextContent n "social-position"))]

/-- `XMLConfigParser.parseHeroSlider(sliderNode)`. -/
def parseHeroSlider (sliderNode : Option Elem) : JVal :=
  match sliderNode with
  | none => .obj []
  | some n =>
      let slides : List JVal :=
        match n.querySelector "slides" with
        | some slidesNode =>
            (slidesNode.querySelectorAll "slide").map (fun slideNode =>
              .obj [("image", .str (getTextContent slideNode "image")),
                    ("alt", .str (getTextContent slideNode "alt"))])
        | none => []
      .obj [("enabled", .bool (getTextContent n "enabled" = "true")),
            ("autoPlay", .bool (getTextContent n "auto-play" = "true")),
            ("interval", jsOrVal (jsParseInt (getTextContent n "interval")) (.num 5000)),
            ("transitionSpeed",
              jsOrVal (jsParseInt (getTextContent n "transition-speed")) (.num 600)),
            ("heights",
              .obj [("desktop", .str (strOr (getTextContent n "height-desktop") "900px")),
                    ("tablet", .str (strOr (getTextContent n "height-tablet") "600px")),
                    ("mobile", .str (strOr (getTextContent n "height-mobile") "400px"))]),
            ("showArrows", .bool (getTextContent n "show-arrows" = "true")),
            ("showDots", .bool (getTextContent n "show-dots" = "true")),
            ("slides", .arr slides)]

/-- `XMLConfigParser.parseCompanyInfo(companyNode)`. -/
def parseCompanyInfo (companyNode : Option Elem) : JVal :=
  match companyNode with
  | none => .obj []
  | some n =>
      let contact : JVal :=
        match n.querySelector "contact" with
        | some cn =>
            let address : JVal :=
              match cn.querySelector "address" with
              | some an =>
                  .obj [("street", .str (getTextContent an "street")),
                        ("city", .str (getTextContent an "city")),
                        ("postcode", .str (getTextContent an "postcode")),
                        ("county", .str (getTextContent an "county")),
                        ("country", .str (getTextContent an "country"))]
              | none => .obj []
            .obj [("phone", .str (getTextContent cn "phone")),
                  ("email", .str (getTextContent cn "email")),
                  ("emergencyPhone", .str (getTextContent cn "emergency-phone")),
                  ("address", address)]
        | none => .obj []
      let hours : JVal :=
        match n.querySelector "hours" with
        | some hn =>
            .obj (["monday", "tuesday", "wednesday", "thursday", "friday",
                   "saturday", "sunday"].foldl
              (fun acc day => setField acc day (.str (getTextContent hn day))) [])
        | none => .obj []
      let socialMedia : JVal :=
        match n.querySelector "social-media" with
        | some sn =>
            .obj [("instagram", .str (getTextContent sn "instagram")),
                  ("facebook", .str (getTextContent sn "facebook")),
                  ("linkedin", .str (getTextContent sn "linkedin"))]
        | none => .obj []
      .obj [("name", .str (getTextContent n "name")),
            ("tagline", .str (getTextContent n "tagline")),
            ("description", .str (getTextContent n "description")),
            ("logo", .str (getTextContent n "logo")),
            ("established", .str (getTextContent n "established")),
            ("projectsCompleted", .str (getTextContent n "projects-completed")),
            ("contact", contact), ("hours", hours), ("socialMedia", socialMedia)]

/-- `XMLConfigParser.parseBranding(brandingNode)`. -/
def parseBranding (brandingNode : Option Elem) : JVal :=
  match brandingNode with
  | none => .obj []
  | some n =>
      let colors : JVal :=
        match n.querySelector "colors" with
        | some cn => .obj (textMapOfChildren cn.children [])
        | none => .obj []
      let typography : JVal :=
        match n.querySelector "typography" with
        | some tn =>
            .obj [("primaryFont", .str (getTextContent tn "primary-font")),
                  ("headingFont", .str (getTextContent tn "heading-font")),
                  ("baseSize", .str (getTextContent tn "base-size"))]
        | none => .obj []
      .obj [("colors", colors), ("typography", typography)]

/-- `XMLConfigParser.parseServices(servicesNode)`: an array, one record per
descendant `service` element. -/
def parseServices (servicesNode : Option Elem) : JVal :=
  match servicesNode with
  | none => .arr []
  | some n =>
      .arr ((n.querySelectorAll "service").map (fun sn =>
        .obj [("id", jvalOfAttr (sn.getAttribute "id")),
              ("name", .str (getTextContent sn "name")),
              ("description", .str (getTextContent sn "description")),
              ("icon", .str (getTextContent sn "icon")),
              ("duration", .str (getTextContent sn "duration")),
              ("priceRange", .str (getTextContent sn "price-range")),
              ("featuredImage", .str (getTextContent sn "featured-image"))]))

/-- `XMLConfigParser.parseAccreditations(accreditationsNode)`. -/
def parseAccreditations (accreditationsNode : Option Elem) : JVal :=
  match accreditationsNode with
  | none => .arr []
  | some n =>
      .arr ((n.querySelectorAll "certification").map (fun cn =>
        .obj [("id", jvalOfAttr (cn.getAttribute "id")),
              ("name", .str (getTextContent cn "name")),
              ("number", .str (getTextContent cn "number")),
              ("issuer", .str (getTextContent cn "issuer")),
              ("validUntil", .str (getTextContent cn "valid-until")),
              ("logo", .str (getTextContent cn "logo")),
              ("verificationUrl", .str (getTextContent cn "verification-url"))]))

/-- `XMLConfigParser.parseGallery(galleryNode)`. -/
def parseGallery (galleryNode : Option Elem) : JVal :=
  match galleryNode with
  | none => .obj []
  | some n =>
      let categories : List JVal :=
        match n.querySelector "categories" with
        | some cats =>
            (cats.querySelectorAll "category").map (fun cn =>
              .obj [("id", jvalOfAttr (cn.getAttribute "id")),
                    ("name", jvalOfAttr (cn.getAttribute "name"))])
        | none => []
      let featuredProjects : List JVal :=
        match n.querySelector "featured-projects" with
        | some projs =>
            (projs.querySelectorAll "project").map (fun pn =>
              let images : List JVal :=
                match pn.querySelector "images" with
                | some imgs =>
                    (imgs.querySelectorAll "image").map (fun img =>
                      .str (jsTrim img.textContent))
                | none => []
              .obj [("id", jvalOfAttr (pn.getAttribute "id")),
                    ("title", .str (getTextContent pn "title")),
                    ("description", .str (getTextContent pn "description")),
                    ("category", .str (getTextContent pn "category")),
                    ("location", .str (getTextContent pn "location")),
                    ("duration", .str (getTextContent pn "duration")),
                    ("year", .str (getTextContent pn "year")),
                    ("images", .arr images)])
        | none => []
      .obj [("instagramHandle", .str (getTextContent n "instagram-handle")),
            ("categories", .arr categories),
            ("featuredProjects", .arr featuredProjects)]

/-- `XMLConfigParser.parseTestimonials(testimonialsNode)`. -/
def parseTestimonials (testimonialsNode : Option Elem) : JVal :=
  match testimonialsNode with
  | none => .arr []
  | some n =>
      .arr ((n.querySelectorAll "testimonial").map (fun tn =>
        .obj [("name", .str (getTextContent tn "name")),
              ("location", .str (getTextContent tn "location")),
              ("rating", jsParseInt (getTextContent tn "rating")),
              ("text", .str (getTextContent tn "text")),
              ("projectType", .str (getTextContent tn "project-type")),
              ("date", .str (getTextContent tn "date")),
              ("author", .str (getTextContent tn "name"))]))

/-- `XMLConfigParser.parseChatbot(chatbotNode)`; the `ui` subtree goes
through the generic extractor and can therefore throw. -/
def parseChatbot (chatbotNode : Option Elem) : Except String JVal :=
  match chatbotNode with
  | none => .ok (.obj [])
  | some n => do
      let ui ←
        match n.querySelector "ui" with
        | some un => parseNestedContent un
        | none => pure (.obj [])
      let personality : JVal :=
        match n.querySelector "personality" with
        | some pn =>
            .obj [("tone", .str (getTextContent pn "tone")),
                  ("expertise", .str (getTextContent pn "expertise")),
                  ("style", .str (getTextContent pn "style"))]
        | none => .obj []
      let prompts : JVal :=
        match n.querySelector "prompts" with
        | some pn =>
            .obj [("generalInquiry", .str (getTextContent pn "general-inquiry")),
                  ("quoteRequest", .str (getTextContent pn "quote-request")),
                  ("emergencyService", .str (getTextContent pn "emergency-service"))]
        | none => .obj []
      let greetingMessages : JVal :=
        match n.querySelector "greeting-messages" with
        | some gn =>
            .obj [("default", .str (getTextContent gn "default")),
                  ("emergency", .str (getTextContent gn "emergency"))]
        | none => .obj []
      let escalationTriggers : List JVal :=
        match n.querySelector "escalation-triggers" with
        | some tn =>
            (tn.querySelectorAll "trigger").map (fun t => .str (jsTrim t.textContent))
        | none => []
      pure (.obj [("apiKey", .str (getTextContent n "api-key")),
                  ("model", .str (getTextContent n "model")),
                  ("maxTokens", jsParseInt (getTextContent n "max-tokens")),
                  ("temperature", jsParseFloat (getTextContent n "temperature")),
                  ("personality", personality),
                  ("prompts", prompts),
                  ("greetingMessages", greetingMessages),
                  ("escalationTriggers", .arr escalationTriggers),
                  ("ui", ui)])

/-- `XMLConfigParser.parseCalendar(calendarNode)`. -/
def parseCalendar (calendarNode : Option Elem) : JVal :=
  match calendarNode with
  | none => .obj []
  | some n =>
      let googleCalendar : JVal :=
        match n.querySelector "google-calendar" with
        | some gn =>
            .obj [("calendarId", .str (getTextContent gn "calendar-id")),
                  ("clientId", .str (getTextContent gn "client-id")),
                  ("clientSecret", .str (getTextContent gn "client-secret"))]
        | none => .obj []
      let outlookCalendar : JVal :=
        match n.querySelector "outlook-calendar" with
        | some onode =>
            .obj [("clientId", .str (getTextContent onode "client-id")),
                  ("clientSecret", .str (getTextContent onode "client-secret")),
                  ("tenantId", .str (getTextContent onode "tenant-id"))]
        | none => .obj []
      let availability : JVal :=
        match n.querySelector "availability" with
        | some an =>
            let workingHours : JVal :=
              match an.querySelector "working-hours" with
              | some hn =>
                  .obj (hn.children.foldl (fun acc dayNode =>
                    setField acc dayNode.tag
                      (.obj [("start", jvalOfAttr (dayNode.getAttribute "start")),
                             ("end", jvalOfAttr (dayNode.getAttribute "end")),
                             ("available",
                               .bool (dayNode.getAttribute "available" ≠ some "false"))]))
                    [])
              | none => .obj []
            .obj [("workingHours", workingHours),
                  ("bufferTime", jsParseInt (getTextContent an "buffer-time")),
                  ("advanceBookingDays",
                    jsParseInt (getTextContent an "advance-booking-days")),
                  ("minimumNoticeHours",
                    jsParseInt (getTextContent an "minimum-notice-hours"))]
        | none => .obj []
      let appointmentTypes : List JVal :=
        match n.querySelector "appointment-types" with
        | some tn =>
            (tn.querySelectorAll "type").map (fun t =>
              .obj [("id", jvalOfAttr (t.getAttribute "id")),
                    ("name", .str (getTextContent t "name")),
                    ("duration", jsParseInt (getTextContent t "duration")),
                    ("description", .str (getTextContent t "description")),
                    ("price", jsParseInt (getTextContent t "price")),
                    ("available247", .bool (getTextContent t "available-247" = "true"))])
        | none => []
      let blackoutDates : List JVal :=
        match n.querySelector "blackout-dates" with
        | some bn =>
            (bn.querySelectorAll "date").map (fun d => .str (jsTrim d.textContent))
        | none => []
      .obj [("provider", .str (getTextContent n "provider")),
            ("googleCalendar", googleCalendar),
            ("outlookCalendar", outlookCalendar),
            ("availability", availability),
            ("appointmentTypes", .arr appointmentTypes),
            ("blackoutDates", .arr blackoutDates)]

/-- `XMLConfigParser.parseSEO(seoNode)`. -/
def parseSEO (seoNode : Option Elem) : JVal :=
  match seoNode with
  | none => .obj []
  | some n =>
      let meta : JVal :=
        match n.querySelector "meta" with
        | some mn =>
            .obj [("title", .str (getTextContent mn "title")),
                  ("description", .str (getTextContent mn "description")),
                  ("keywords", .str (getTextContent mn "keywords")),
                  ("author", .str (getTextContent mn "author"))]
        | none => .obj []
      let analytics : JVal :=
        match n.querySelector "analytics" with
        | some an =>
            .obj [("googleAnalyticsId", .str (getTextContent an "google-analytics-id")),
                  ("googleTagManagerId",
                    .str (getTextContent an "google-tag-manager-id"))]
        | none => .obj []
      let localBusiness : JVal :=
        match n.querySelector "local-business" with
        | some ln =>
            .obj [("type", .str (getTextContent ln "type")),
                  ("areaServed", .str (getTextContent ln "area-served")),
                  ("priceRange", .str (getTextContent ln "price-range"))]
        | none => .obj []
      .obj [("meta", meta), ("analytics", analytics), ("localBusiness", localBusiness)]

/-- `XMLConfigParser.parseUI(uiNode)`: navigation/messages go through the
generic extractor, buttons/labels are flat text maps. -/
def parseUI (uiNode : Option Elem) : Except String JVal :=
  match uiNode with
  | none => .ok (.obj [])
  | some n => do
      let acc : List (String × JVal) := []
      let acc ←
        match n.querySelector "navigation" with
        | some nav => do
            let v ← parseNestedContent nav
            pure (setField acc "navigation" v)
        | none => pure acc
      let acc :=
        match n.querySelector "buttons" with
        | some bn => setField acc "buttons" (.obj (textMapOfChildren bn.children []))
        | none => acc
      let acc ←
        match n.querySelector "messages" with
        | some mn => do
            let v ← parseNestedContent mn
            pure (setField acc "messages" v)
        | none => pure acc
      let acc :=
        match n.querySelector "labels" with
        | some ln => setField acc "labels" (.obj (textMapOfChildren ln.children []))
        | none => acc
      pure (.obj acc)

/-- `XMLConfigParser.parseFormConfig(formNode)`; the optional `guidance`
subtree goes through the generic extractor. -/
def parseFormConfig (formNode : Elem) : Except String JVal := do
  let fields : List JVal :=
    match formNode.querySelector "fields" with
    | some fn =>
        (fn.querySelectorAll "field").map (fun fieldNode =>
          let base :=
            [("name", jvalOfAttr (fieldNode.getAttribute "name")),
             ("type", jvalOfAttr (fieldNode.getAttribute "type")),
             ("label", jvalOfAttr (fieldNode.getAttribute "label")),
             ("placeholder", jvalOfAttr (fieldNode.getAttribute "placeholder")),
             ("required", .bool (fieldNode.getAttribute "required" == some "true")),
             ("rows", jvalOfAttr (fieldNode.getAttribute "rows"))]
          match fieldNode.querySelector "options" with
          | some optionsNode =>
              .obj (setField base "options"
                (.arr ((optionsNode.querySelectorAll "option").map (fun opt =>
                  .obj [("value", jvalOfAttr (opt.getAttribute "value")),
                        ("text", .str (jsTrim opt.textContent))]))))
          | none => .obj base)
    | none => []
  let acc : List (String × JVal) :=
    [("title", .str (getTextContent formNode "title")),
     ("subtitle", .str (getTextContent formNode "subtitle")),
     ("fields", .arr fields)]
  let acc :=
    match formNode.querySelector "messages" with
    | some mn => setField acc "messages" (.obj (textMapOfChildren mn.children []))
    | none => acc
  let acc ←
    match formNode.querySelector "guidance" with
    | some gn => do
        let v ← parseNestedContent gn
        pure (setField acc "guidance" v)
    | none => pure acc
  pure (.obj acc)

/-- The `for (let formNode of formsNode.children)` loop of `parseForms`. -/
def formsLoop (rest : List Elem) (acc : List (String × JVal)) :
    Except String (List (String × JVal)) :=
  match rest with
  | [] => .ok acc
  | formNode :: rest' => do
      let v ← parseFormConfig formNode
      formsLoop rest' (setField acc formNode.tag v)

/-- `XMLConfigParser.parseForms(formsNode)`. -/
def parseForms (formsNode : Option Elem) : Except String JVal :=
  match formsNode with
  | none => .ok (.obj [])
  | some n => do
      let fields ← formsLoop n.children []
      pure (.obj fields)

/-- `XMLConfigParser.parseBusinessPolicies(policiesNode)`. -/
def parseBusinessPolicies (policiesNode : Option Elem) : Except String JVal :=
  match policiesNode with
  | none => .ok (.obj [])
  | some n => parseNestedContent n

/-- `XMLConfigParser.parseServiceAreas(areasNode)`. -/
def parseServiceAreas (areasNode : Option Elem) : JVal :=
  match areasNode with
  | none => .obj []
  | some n =>
      let regions : List JVal :=
        (n.querySelectorAll "region").map (fun regionNode =>
          .obj [("name", jvalOfAttr (regionNode.getAttribute "name")),
                ("areas",
                  .arr ((regionNode.querySelectorAll "area").map (fun a =>
                    .str (jsTrim a.textContent))))])
      .obj [("regions", .arr regions),
            ("fallbackMessage", .str (getTextContent n "fallback-message"))]

/-- `XMLConfigParser.parseXMLToObject(xmlDoc)`, taking the document's root
element; assembles all sections in source order. -/
def parseXMLToObject (root : Elem) : Except String JVal := do
  let toggles := parseFeatureToggles (root.querySelector "feature-toggles")
  let chatbot ← parseChatbot (root.querySelector "chatbot")
  let pages ← parsePages (root.querySelector "pages")
  let ui ← parseUI (root.querySelector "ui")
  let forms ← parseForms (root.querySelector "forms")
  let policies ← parseBusinessPolicies (root.querySelector "business-policies")
  pure (.obj
    [("feature-toggles", toggles),
     ("design", parseDesign (root.querySelector "design")),
     ("top-bar", parseTopBar (root.querySelector "top-bar")),
     ("hero-slider", parseHeroSlider (root.querySelector "hero-slider")),
     ("company", parseCompanyInfo (root.querySelector "company")),
     ("branding", parseBranding (root.querySelector "branding")),
     ("services", parseServices (root.querySelector "services")),
     ("accreditations", parseAccreditations (root.querySelector "accreditations")),
     ("gallery", parseGallery (root.querySelector "gallery")),
     ("testimonials", parseTestimonials (root.querySelector "testimonials")),
     ("chatbot", chatbot),
     ("calendar", parseCalendar (root.querySelector "calendar")),
     ("seo", parseSEO (root.querySelector "seo")),
     ("pages", pages),
     ("ui", ui),
     ("forms", forms),
     ("business-policies", policies),
     ("service-areas", parseServiceAreas (root.querySelector "service-areas"))])

/-! ## Fallback configuration (`getFallbackConfig`, part_006 lines 139-435) -/

/-- Shorthand for the ubiquitous `{ enabled: true }` leaf of the fallback
toggle tree. -/
def fbOn : JVal := .obj [("enabled", .bool true)]

/-- `XMLConfigParser.getFallbackConfig()`: the hardcoded configuration used
when XML loading fails, transcribed field by field. -/
def getFallbackConfig : JVal :=
  .obj
    [("feature-toggles", .obj
        [("hero-section", fbOn), ("services-section", fbOn),
         ("testimonials-section", fbOn), ("why-choose-us-section", fbOn),
         ("accreditations-section", fbOn), ("gallery-section", fbOn),
         ("contact-section", fbOn), ("chatbot", fbOn),
         ("calendar-booking", fbOn), ("quick-quote-modal", fbOn),
         ("theme-switcher", fbOn), ("instagram-integration", fbOn),
         ("analytics-tracking", fbOn), ("booking-analytics", fbOn),
         ("automated-workflows", fbOn), ("emergency-booking", fbOn),
         ("services-page", .obj
            [("service-cards", fbOn), ("pricing-display", fbOn),
             ("duration-display", fbOn), ("service-icons", fbOn)]),
         ("gallery-page", .obj
            [("image-gallery", fbOn), ("category-filter", fbOn),
             ("lightbox-viewer", fbOn), ("instagram-feed", fbOn)]),
         ("booking-page", .obj
            [("consultation-types", fbOn), ("calendar-widget", fbOn),
             ("time-slot-selector", fbOn), ("appointment-booking", fbOn),
             ("emergency-section", fbOn)]),
         ("contact-page", .obj
            [("contact-form", fbOn), ("business-hours", fbOn),
             ("location-map", fbOn), ("emergency-contact", fbOn)]),
         ("navigation", .obj
            [("mobile-menu", fbOn), ("theme-dropdown", fbOn),
             ("active-page-highlighting", fbOn)]),
         ("footer", .obj
            [("social-links", fbOn), ("quick-links", fbOn),
             ("contact-info", fbOn), ("copyright", fbOn)])]),
     ("design", .obj
        [("theme", .str "kjs-style"),
         ("colors", .obj
            [("primary", .str "#212121"), ("secondary", .str "#0fb6ee"),
             ("accent", .str "#0fb6ee"), ("background", .str "#f7f7f7"),
             ("white", .str "#ffffff"), ("text", .str "#000000"),
             ("text-light", .str "#ffffff")]),
         ("fonts", .obj
            [("heading", .str "Montserrat"), ("body", .str "Open Sans"),
             ("baseSize", .str "14px")])]),
     ("top-bar", .obj
        [("enabled", .bool true), ("showOnMobile", .bool false),
         ("phoneIcon", .bool true), ("emailIcon", .bool true),
         ("socialPosition", .str "right")]),
     ("hero-slider", .obj
        [("enabled", .bool true), ("autoPlay", .bool true),
         ("interval", .num 5000), ("transitionSpeed", .num 600),
         ("heights", .obj
            [("desktop", .str "900px"), ("tablet", .str "600px"),
             ("mobile", .str "400px")]),
         ("showArrows", .bool true), ("showDots", .bool true),
         ("slides", .arr
            [.obj [("image", .str "images/hero/slide-1.jpg"),
                   ("alt", .str "Quality construction work")],
             .obj [("image", .str "images/hero/slide-2.jpg"),
                   ("alt", .str "Professional building services")],
             .obj [("image", .str "images/hero/slide-3.jpg"),
                   ("alt", .str "Home extensions")],
             .obj [("image", .str "images/hero/slide-4.jpg"),
                   ("alt", .str "Kitchen renovations")]])]),
     ("company", .obj
        [("name", .str "Raiswell Building Services"),
         ("tagline", .str "Quality Construction You Can Trust"),
         ("description", .str "Professional building services with over 15 years of experience. Specializing in home extensions, kitchen fitting, bathroom renovations, and general construction work across London and the South East."),
         ("logo", .str "images/hero/company-logo.png"),
         ("established", .str "2008"),
         ("projectsCompleted", .str "500+"),
         ("contact", .obj
            [("phone", .str "+44 7700 900123"),
             ("email", .str "colin@raiswell.com"),
             ("emergencyPhone", .str "+44 7700 900999"),
             ("address", .obj
                [("street", .str "45 High Street"), ("city", .str "Orpington"),
                 ("postcode", .str "BR6 0JH"), ("county", .str "Kent"),
                 ("country", .str "United Kingdom")])]),
         ("hours", .obj
            [("monday", .str "08:00-18:00"), ("tuesday", .str "08:00-18:00"),
             ("wednesday", .str "08:00-18:00"), ("thursday", .str "08:00-18:00"),
             ("friday", .str "08:00-18:00"), ("saturday", .str "08:00-16:00"),
             ("sunday", .str "Emergency Only")]),
         ("socialMedia", .obj
            [("instagram", .str "@Raiswellbuilds"),
             ("facebook", .str "RaiswellBuildsUK"),
             ("linkedin", .str "company/Raiswell-building-services")])]),
     ("branding", .obj
        [("colors", .obj
            [("primary", .str "#212121"), ("secondary", .str "#0fb6ee"),
             ("accent", .str "#0fb6ee"), ("background", .str "#f7f7f7"),
             ("white", .str "#ffffff"), ("text", .str "#000000"),
             ("text-light", .str "#ffffff"), ("light-gray", .str "#ECF0F1")]),
         ("typography", .obj
            [("primaryFont", .str "Open Sans, sans-serif"),
             ("headingFont", .str "Montserrat, sans-serif"),
             ("baseSize", .str "14px")])]),
     ("services", .arr
        [.obj [("id", .str "extensions"), ("name", .str "Home Extensions"),
               ("description", .str "Single and double-storey extensions, conservatories, and garden rooms. Full planning permission support and project management."),
               ("icon", .str "🏠"), ("duration", .str "4-12 weeks"),
               ("priceRange", .str "£15,000 - £50,000"),
               ("featuredImage", .str "images/services/extension-placeholder.svg")],
         .obj [("id", .str "kitchens"), ("name", .str "Kitchen Fitting"),
               ("description", .str "Complete kitchen design and installation. From contemporary to traditional styles, including all plumbing and electrical work."),
               ("icon", .str "🍽️"), ("duration", .str "1-3 weeks"),
               ("priceRange", .str "£8,000 - £25,000"),
               ("featuredImage", .str "images/services/kitchen-placeholder.svg")],
         .obj [("id", .str "bathrooms"), ("name", .str "Bathroom Renovations"),
               ("description", .str "Full bathroom refurbishment including tiling, plumbing, and electrical work. Luxury fittings and accessible design options."),
               ("icon", .str "🛁"), ("duration", .str "1-2 weeks"),
               ("priceRange", .str "£5,000 - £15,000"),
               ("featuredImage", .str "images/services/bathroom-placeholder.svg")],
         .obj [("id", .str "general"), ("name", .str "General Building"),
               ("description", .str "Property maintenance, repairs, roofing, plastering, and general construction work. No job too small."),
               ("icon", .str "🔨"), ("duration", .str "1 day - 2 weeks"),
               ("priceRange", .str "£200 - £5,000"),
               ("featuredImage", .str "images/services/general-placeholder.svg")]]),
     ("accreditations", .arr
        [.obj [("id", .str "gas-safe"), ("name", .str "Gas Safe Registered"),
               ("number", .str "123456"), ("issuer", .str "Gas Safe Register"),
               ("validUntil", .str "2025-03-15"),
               ("logo", .str "images/accreditation/gas-safe.png"),
               ("verificationUrl", .str "https://www.gassaferegister.co.uk/find-an-engineer/")],
         .obj [("id", .str "niceic"), ("name", .str "NICEIC Approved Contractor"),
               ("number", .str "ABC123"), ("issuer", .str "NICEIC"),
               ("validUntil", .str "2025-06-30"),
               ("logo", .str "images/accreditation/niceic.png"),
               ("verificationUrl", .str "https://www.niceic.com/find-a-contractor")],
         .obj [("id", .str "fmb"), ("name", .str "Federation of Master Builders"),
               ("number", .str "FMB789"), ("issuer", .str "FMB"),
               ("validUntil", .str "2025-12-31"),
               ("logo", .str "images/accreditation/fmb.png"),
               ("verificationUrl", .str "https://www.fmb.org.uk/find-a-builder/")],
         .obj [("id", .str "checkatrade"), ("name", .str "Checkatrade Approved"),
               ("number", .str "456789"), ("issuer", .str "Checkatrade"),
               ("validUntil", .str "2025-08-15"),
               ("logo", .str "images/accreditation/checkatrade.png"),
               ("verificationUrl", .str "https://www.checkatrade.com/")]]),
     ("testimonials", .arr
        [.obj [("name", .str "Sarah Thompson"), ("location", .str "Orpington, Kent"),
               ("rating", .num 5),
               ("text", .str "Raiswell transformed our dated kitchen into a stunning modern space. Professional, reliable, and excellent attention to detail. Highly recommended!"),
               ("projectType", .str "Kitchen Renovation"),
               ("date", .str "2024-01-15")],
         .obj [("name", .str "Mike & Jenny Roberts"), ("location", .str "Bromley, Kent"),
               ("rating", .num 5),
               ("text", .str "Our house extension was completed on time and within budget. Raiswell\x27s expertise and communication throughout the project was exceptional."),
               ("projectType", .str "Single Storey Extension"),
               ("date", .str "2023-11-30")],
         .obj [("name", .str "David Wilson"), ("location", .str "Croydon, Surrey"),
               ("rating", .num 5),
               ("text", .str "Emergency roof repair completed quickly and professionally. Raiswell went above and beyond to ensure our home was weatherproof."),
               ("projectType", .str "Emergency Repairs"),
               ("date", .str "2024-02-20")]]),
     ("gallery", .obj
        [("instagramHandle", .str "Raiswellbuilds"),
         ("categories", .arr
            [.obj [("id", .str "extensions"), ("name", .str "Extensions")],
             .obj [("id", .str "kitchens"), ("name", .str "Kitchens")],
             .obj [("id", .str "bathrooms"), ("name", .str "Bathrooms")],
             .obj [("id", .str "general"), ("name", .str "General Work")],
             .obj [("id", .str "before-after"), ("name", .str "Before & After")]]),
         ("featuredProjects", .arr
            [.obj [("id", .str "modern-extension"),
                   ("title", .str "Modern Two-Storey Extension"),
                   ("description", .str "Contemporary glass and steel extension adding 40sqm of living space"),
                   ("category", .str "extensions"),
                   ("location", .str "Beckenham, Kent"),
                   ("duration", .str "8 weeks"), ("year", .str "2024"),
                   ("images", .arr
                      [.str "images/gallery/ext-modern-1.jpg",
                       .str "images/gallery/ext-modern-2.jpg",
                       .str "images/gallery/ext-modern-3.jpg"])]])]),
     ("seo", .obj
        [("meta", .obj
            [("title", .str "Raiswell Building Services | Local Builder"),
             ("description", .str "Professional building services in Manchester. Extensions, kitchens, bathrooms & general building work. Gas Safe registered, NICEIC approved. Free quotes."),
             ("keywords", .str "builder manchester, home extensions, kitchen fitting, bathroom renovation, building services, gas safe, niceic"),
             ("author", .str "Raiswell\x27s Professional Building Services")]),
         ("analytics", .obj
            [("googleAnalyticsId", .str "GA-XXXXXXXX-X"),
             ("googleTagManagerId", .str "GTM-XXXXXXX")]),
         ("localBusiness", .obj
            [("type", .str "GeneralContractor"),
             ("areaServed", .str "Greater Manchester, UK"),
             ("priceRange", .str "££")])])]

/-! ## Load paths of the runtime facade (`loadConfig` / `loadFromXML`,
part_006 lines 18-89)

`loadConfig` is an `async` method on a singleton with fields
`config` / `loaded` / `useCompiledConfig`; the embedding passes that state
explicitly. Promise resolution is the function's return value (the JS
method never rejects: every throw inside `loadFromXML` is caught).
Observable side effects performed before resolution are collected in a
list, in execution order. -/

/-- The generated compiled-configuration artifact (`window.compiledConfig`). -/
structure CompiledConfig where
  loaded : Bool
  config : JVal

/-- The browser environment: `window.compiledConfig` may be absent. -/
structure Env where
  compiledConfig : Option CompiledConfig

/-- Mutable fields of the `XMLConfigParser` instance. -/
structure ParserState where
  config : Option JVal
  loaded : Bool
  useCompiledConfig : Bool

/-- The constructor state: `config = null`, `loaded = false`,
`useCompiledConfig = false`. -/
def initialState : ParserState := ⟨none, false, false⟩

/-- Truthiness of the possibly-`null` `this.config`. -/
def configTruthy : Option JVal → Bool
  | none => false
  | some v => truthy v

/-- Side effects of a load path observable before its promise resolves:
a network fetch being issued, and the invocations of the style-application
routines (`applyBrandingStyles` / `applyDesignStyles` /
`compiledConfig.applyBrandingStyles`). -/
inductive Effect where
  | fetch
  | applyBranding
  | applyDesign
  | compiledApplyBranding
  deriving DecidableEq, Repr

/-- Outcome of `fetch('config/site-config.xml')` followed by `DOMParser`
(both browser primitives): rejection, non-ok status, a document whose
body is a `parsererror`, or a well-formed document root. -/
inductive XMLLoadInput where
  | fetchReject
  | httpError (status : Nat)
  | parseErrorDoc (msg : String)
  | wellFormed (root : Elem)

/-- The `try` block of `loadFromXML` after the fetch: every failure is a
thrown exception (`Except.error`), success parses the document. -/
def fetchAndParse : XMLLoadInput → Except String JVal
  | .fetchReject => .error "fetch rejected"
  | .httpError status => .error ("HTTP error! status: " ++ toString status)
  | .parseErrorDoc msg => .error ("XML parsing error: " ++ msg)
  | .wellFormed root => parseXMLToObject root

/-- Resolution value and post-fetch effects of `loadFromXML`: on success
the branding and design style routines run before returning; the `catch`
branch returns the fallback configuration and applies no styles. -/
def loadFromXMLResolve (input : XMLLoadInput) : JVal × List Effect :=
  match fetchAndParse input with
  | .ok cfg => (cfg, [.applyBranding, .applyDesign])
  | .error _ => (getFallbackConfig, [])

/-- `XMLConfigParser.loadFromXML()`: fetch, parse, set state; never
rejects — all failures are caught and produce the fallback
configuration. -/
def loadFromXML (input : XMLLoadInput) (s : ParserState) :
    JVal × ParserState × List Effect :=
  let (result, styleEffects) := loadFromXMLResolve input
  (result, { s with config := some result, loaded := true },
    .fetch :: styleEffects)

/-- `XMLConfigParser.loadConfig()`: memoized-result guard, then the
compiled path, then the XML path. -/
def loadConfig (env : Env) (input : XMLLoadInput) (s : ParserState) :
    JVal × ParserState × List Effect :=
  if s.loaded ∧ configTruthy s.config then
    (s.config.getD .null, s, [])
  else
    match env.compiledConfig with
    | some cc =>
        if cc.loaded then
          (cc.config,
           { config := some cc.config, loaded := true, useCompiledConfig := true },
           [.compiledApplyBranding])
        else loadFromXML input s
    | none => loadFromXML input s

/-- Two `loadConfig()` calls issued before the first settles, under the
run-to-completion event loop: each call runs synchronously up to its
first `await`. On the cached and compiled paths the body has no `await`
before completion, so the first call finishes before the second starts;
on the XML path both calls pass the memoization guard (the state is only
written after the fetch `await`), so each issues its own fetch, and the
two continuations then run in order. Returns both resolution values, the
final state, and all effects in execution order. -/
def concurrentLoadConfig (env : Env) (inputA inputB : XMLLoadInput)
    (s : ParserState) : (JVal × JVal) × ParserState × List Effect :=
  if s.loaded ∧ configTruthy s.config then
    ((s.config.getD .null, s.config.getD .null), s, [])
  else
    match env.compiledConfig with
    | some cc =>
        if cc.loaded then
          let (rA, s1, eA) := loadConfig env inputA s
          let (rB, s2, eB) := loadConfig env inputB s1
          ((rA, rB), s2, eA ++ eB)
        else
          let (rA, esA) := loadFromXMLResolve inputA
          let (rB, esB) := loadFromXMLResolve inputB
          ((rA, rB), { s with config := some rB, loaded := true },
            [.fetch, .fetch] ++ esA ++ esB)
    | none =>
        let (rA, esA) := loadFromXMLResolve inputA
        let (rB, esB) := loadFromXMLResolve inputB
        ((rA, rB), { s with config := some rB, loaded := true },
          [.fetch, .fetch] ++ esA ++ esB)

/-- Number of network fetches in an effect trace. -/
def countFetches (es : List Effect) : Nat :=
  es.count .fetch

/-- Whether an effect trace contains a style-application invocation. -/
def hasStyleEffect (es : List Effect) : Bool :=
  es.any (fun e =>
    e = .applyBranding ∨ e = .applyDesign ∨ e = .compiledApplyBranding)

/-! ## Accessor surface (non-compiled path; part_006 lines 1270-1583) -/

/-- `base?.[key]` optional-chained property access. -/
def optChain (base : Option JVal) (key : String) : Option JVal :=
  match base with
  | none => none
  | some v => getProp v key

/-- `getCompany()`: `this.config?.company || {}`. -/
def getCompany (config : Option JVal) : JVal :=
  jsOrDefault (optChain config "company") (.obj [])

/-- `getServices()`: the stored array when it is one, otherwise
`[services || {}]`. -/
def getServices (config : Option JVal) : JVal :=
  match optChain config "services" with
  | some (.arr xs) => .arr xs
  | v => .arr [jsOrDefault v (.obj [])]

/-- `getTestimonials()`. -/
def getTestimonials (config : Option JVal) : JVal :=
  match optChain config "testimonials" with
  | some (.arr xs) => .arr xs
  | v => .arr [jsOrDefault v (.obj [])]

/-- `getAccreditations()`. -/
def getAccreditations (config : Option JVal) : JVal :=
  match optChain config "accreditations" with
  | some (.arr xs) => .arr xs
  | v => .arr [jsOrDefault v (.obj [])]

/-- `getPageConfig(pageName)`: `this.config?.pages?.[pageName] || {}`. -/
def getPageConfig (config : Option JVal) (pageName : String) : JVal :=
  jsOrDefault (optChain (optChain config "pages") pageName) (.obj [])

/-- `getFormConfig(formName)`: `this.config?.forms?.[formName] || {}`. -/
def getFormConfig (config : Option JVal) (formName : String) : JVal :=
  jsOrDefault (optChain (optChain config "forms") formName) (.obj [])

/-- `getButtonText(buttonKey)`:
`this.config?.ui?.buttons?.[buttonKey] || buttonKey`. -/
def getButtonText (config : Option JVal) (buttonKey : String) : JVal :=
  jsOrDefault (optChain (optChain (optChain config "ui") "buttons") buttonKey)
    (.str buttonKey)

/-- `getLabel(labelKey)`: `this.config?.ui?.labels?.[labelKey] || labelKey`. -/
def getLabel (config : Option JVal) (labelKey : String) : JVal :=
  jsOrDefault (optChain (optChain (optChain config "ui") "labels") labelKey)
    (.str labelKey)

/-- The segment loop of `getMessage`: a falsy or absent step returns the
whole message path, the final node falls back to the path when falsy. -/
def getMessageLoop (cur : Option JVal) (parts : List String)
    (messagePath : String) : JVal :=
  match parts with
  | [] => jsOrDefault cur (.str messagePath)
  | part :: rest =>
      match cur with
      | none => .str messagePath
      | some v =>
          if ¬ truthy v then .str messagePath
          else
            match getProp v part with
            | none => .str messagePath
            | some w =>
                if ¬ truthy w then .str messagePath
                else getMessageLoop (some w) rest messagePath

/-- `getMessage(messagePath)` over `this.config?.ui?.messages`. -/
def getMessage (config : Option JVal) (messagePath : String) : JVal :=
  getMessageLoop (optChain (optChain config "ui") "messages")
    (splitDot messagePath) messagePath

/-- `getTemplate(templateName, index)` on the non-compiled path: always
the empty string (templates only exist post-compilation). -/
def getTemplate (_config : Option JVal) (_templateName : String)
    (_index : Nat) : JVal :=
  .str ""

/-! ## Helper notions for stating toggle-path properties -/

/-- Whether every segment of a path exists (as a property step) from a
node: the spec's "segments all exist in the toggle tree". -/
def existsAllB : JVal → List String → Bool
  | _, [] => true
  | cur, part :: rest =>
      match getProp cur part with
      | none => false
      | some v => existsAllB v rest

/-- The node the toggle walk reaches after consuming all segments without
triggering an early default return (each step present and truthy). -/
def reachNode : JVal → List String → Option JVal
  | cur, [] => some cur
  | cur, part :: rest =>
      match getProp cur part with
      | none => none
      | some v => if truthy v then reachNode v rest else none

/-! ## Helper lemmas -/

/-- Bind on an `Except.ok` value steps to the continuation. -/
@[simp] lemma except_bind_ok {ε α β : Type} (a : α) (f : α → Except ε β) :
    (Except.ok a : Except ε α) >>= f = f a := rfl

/-- A successful property read implies the base value is an object, hence
truthy. -/
lemma truthy_of_getProp_some {c : JVal} {k : String} {v : JVal}
    (h : getProp c k = some v) : truthy c = true := by
  cases c <;> simp [getProp, truthy] at h ⊢

/-- If some segment of the path is missing, the toggle walk returns the
default `true`. -/
lemma walkToggles_of_not_existsAll :
    ∀ (segs : List String) (cur : JVal),
      existsAllB cur segs = false → walkToggles cur segs = true := by
  intro segs
  induction segs with
  | nil => intro cur h; simp [existsAllB] at h
  | cons p rest ih =>
      intro cur h
      simp only [existsAllB] at h
      simp only [walkToggles]
      cases hg : getProp cur p with
      | none => rfl
      | some v =>
          rw [hg] at h
          by_cases ht : truthy v
          · simp [ht, ih v h]
          · simp [ht]

/-- When the walk consumes all segments (each step present and truthy),
its result is the terminal evaluation of the node reached. -/
lemma walkToggles_of_reach :
    ∀ (segs : List String) (cur final : JVal),
      reachNode cur segs = some final →
      walkToggles cur segs = evalToggleNode final := by
  intro segs
  induction segs with
  | nil =>
      intro cur final h
      simp [reachNode] at h
      simp [walkToggles, h]
  | cons p rest ih =>
      intro cur final h
      simp only [reachNode] at h
      simp only [walkToggles]
      cases hg : getProp cur p with
      | none => simp [hg] at h
      | some v =>
          simp only [hg] at h ⊢
          by_cases ht : truthy v
          · rw [if_pos ht] at h
            simp [ht, ih v final h]
          · rw [if_neg ht] at h
            simp at h

/-- Reaching `mid` over a prefix lets the walk continue from `mid`. -/
lemma walkToggles_append :
    ∀ (pre : List String) (cur mid : JVal),
      reachNode cur pre = some mid →
      ∀ rest, walkToggles cur (pre ++ rest) = walkToggles mid rest := by
  intro pre
  induction pre with
  | nil =>
      intro cur mid h rest
      simp [reachNode] at h
      simp [h]
  | cons p ps ih =>
      intro cur mid h rest
      simp only [reachNode] at h
      simp only [List.cons_append, walkToggles]
      cases hg : getProp cur p with
      | none => simp [hg] at h
      | some v =>
          simp only [hg] at h ⊢
          by_cases ht : truthy v
          · rw [if_pos ht] at h
            simp [ht, ih v mid h rest]
          · rw [if_neg ht] at h
            simp at h

/-- With a present, truthy toggle tree, `isFeatureEnabled` is the walk
over the split path. -/
lemma isFeatureEnabled_eq_walk {c t : JVal} {p : String}
    (h : getProp c "feature-toggles" = some t) (ht : truthy t = true) :
    isFeatureEnabled (some c) p = walkToggles t (splitDot p) := by
  have hc := truthy_of_getProp_some h
  simp [isFeatureEnabled, hc, h, ht]

/-- `isFeatureEnabled` defaults to `true` when the section is absent. -/
lemma isFeatureEnabled_of_toggles_none {c : JVal} (p : String)
    (h : getProp c "feature-toggles" = none) :
    isFeatureEnabled (some c) p = true := by
  by_cases hc : truthy c
  · simp [isFeatureEnabled, hc, h]
  · simp [isFeatureEnabled, hc]

/-- The message loop immediately falls back when the start is absent. -/
lemma getMessageLoop_none (parts : List String) (p : String) :
    getMessageLoop none parts p = .str p := by
  cases parts <;> rfl

/-- Neither branch of the post-fetch phase of `loadFromXML` issues another
fetch. -/
lemma countFetches_resolve (input : XMLLoadInput) :
    countFetches (loadFromXMLResolve input).2 = 0 := by
  unfold loadFromXMLResolve
  cases fetchAndParse input <;> simp [countFetches]

/-! ## Claim theorems -/

/-- C1: for every dot-segmented toggle path whose segments do not all
exist in the loaded feature-toggle tree — including the case where no
feature-toggles section is present at all (config still `null`, the
`feature-toggles` key absent, or a path segment missing) —
`isFeatureEnabled` returns `true`. -/
theorem C1_missing_toggle_path_defaults_enabled :
    (∀ p : String, isFeatureEnabled none p = true)
    ∧ (∀ (c : JVal) (p : String), getProp c "feature-toggles" = none →
        isFeatureEnabled (some c) p = true)
    ∧ (∀ (c t : JVal) (p : String), getProp c "feature-toggles" = some t →
        existsAllB t (splitDot p) = false → isFeatureEnabled (some c) p = true) := by
  refine ⟨fun p => rfl, fun c p h => isFeatureEnabled_of_toggles_none p h, ?_⟩
  intro c t p h hex
  by_cases ht : truthy t
  · rw [isFeatureEnabled_eq_walk h ht]
    exact walkToggles_of_not_existsAll _ t hex
  · have hc := truthy_of_getProp_some h
    simp [isFeatureEnabled, hc, h, ht]

/-- Witness for C1: a `null` config, a config without a toggle section,
and a toggle tree missing the leading path segment all yield `true`. -/
theorem C1_witness :
    isFeatureEnabled none "chatbot" = true
    ∧ isFeatureEnabled (some (.obj [("company", .obj [])])) "chatbot" = true
    ∧ isFeatureEnabled
        (some (.obj [("feature-toggles", .obj [("chatbot", fbOn)])]))
        "nonexistent.x" = true :=
  ⟨C1_missing_toggle_path_defaults_enabled.1 "chatbot",
   C1_missing_toggle_path_defaults_enabled.2.1 (.obj [("company", .obj [])])
     "chatbot" rfl,
   C1_missing_toggle_path_defaults_enabled.2.2
     (.obj [("feature-toggles", .obj [("chatbot", fbOn)])])
     (.obj [("chatbot", fbOn)]) "nonexistent.x" rfl rfl⟩

/-- C5: when the walk ends at a leaf object carrying an `enabled` field,
`isFeatureEnabled` returns that flag's truth value — `true` exactly for
the boolean `true` and the string `"true"` (so the strings `"true"` /
`"false"` are accepted alongside real booleans); in particular
`{chatbot: {enabled: false}}` and `{chatbot: {enabled: "false"}}` both
make `isFeatureEnabled("chatbot")` false. -/
theorem C5_enabled_field_decides :
    (∀ (c t : JVal) (p : String) (fs : List (String × JVal)) (b : Bool),
       getProp c "feature-toggles" = some t → truthy t = true →
       reachNode t (splitDot p) = some (.obj fs) →
       lookupField fs "enabled" = some (.bool b) →
       isFeatureEnabled (some c) p = b)
    ∧ (∀ (c t : JVal) (p : String) (fs : List (String × JVal)) (s : String),
       getProp c "feature-toggles" = some t → truthy t = true →
       reachNode t (splitDot p) = some (.obj fs) →
       lookupField fs "enabled" = some (.str s) →
       isFeatureEnabled (some c) p = (s == "true"))
    ∧ isFeatureEnabled
        (some (.obj [("feature-toggles",
          .obj [("chatbot", .obj [("enabled", .bool false)])])])) "chatbot" = false
    ∧ isFeatureEnabled
        (some (.obj [("feature-toggles",
          .obj [("chatbot", .obj [("enabled", .str "false")])])])) "chatbot" = false := by
  refine ⟨?_, ?_, rfl, rfl⟩
  · intro c t p fs b h ht hr hl
    rw [isFeatureEnabled_eq_walk h ht, walkToggles_of_reach _ t _ hr]
    simp [evalToggleNode, hl, jsEqTrueLit]
  · intro c t p fs s h ht hr hl
    rw [isFeatureEnabled_eq_walk h ht, walkToggles_of_reach _ t _ hr]
    simp only [evalToggleNode, hl, jsEqTrueLit]
    by_cases hs : s = "true" <;> simp [hs]

/-- Witness for C5: concrete trees with a boolean and a string `enabled`
flag, resolved through the general parts of the theorem. -/
theorem C5_witness :
    isFeatureEnabled
      (some (.obj [("feature-toggles",
        .obj [("hero", .obj [("enabled", .bool true)])])])) "hero" = true
    ∧ isFeatureEnabled
        (some (.obj [("feature-toggles",
          .obj [("hero", .obj [("enabled", .str "yes")])])])) "hero" = ("yes" == "true") :=
  ⟨C5_enabled_field_decides.1
     (.obj [("feature-toggles", .obj [("hero", .obj [("enabled", .bool true)])])])
     (.obj [("hero", .obj [("enabled", .bool true)])]) "hero"
     [("enabled", .bool true)] true rfl rfl rfl rfl,
   C5_enabled_field_decides.2.1
     (.obj [("feature-toggles", .obj [("hero", .obj [("enabled", .str "yes")])])])
     (.obj [("hero", .obj [("enabled", .str "yes")])]) "hero"
     [("enabled", .str "yes")] "yes" rfl rfl rfl rfl⟩

/-- Counterexample to C6: the claim says a tree mapping a path to the
bare boolean `false` makes `isFeatureEnabled` of that path return
`false`; on the tree `{darkmode: false}` the code returns `true` instead
(the falsy guard `if (!current[part])` treats the `false` node as a
missing segment and returns the default). -/
theorem C6_counterexample :
    ¬ (isFeatureEnabled
        (some (.obj [("feature-toggles", .obj [("darkmode", .bool false)])]))
        "darkmode" = false) := by decide

/-- C6 amended: if the node reached at the end of the toggle-path walk is
the bare boolean `true`, `isFeatureEnabled` returns `true`; but a bare
boolean `false` never reaches the final check — the falsy per-segment
guard intercepts it and returns the default `true` — so a bare `false`
node yields `true`, not `false`. -/
theorem C6_amended_bare_booleans :
    (∀ (c t : JVal) (p : String),
       getProp c "feature-toggles" = some t → truthy t = true →
       reachNode t (splitDot p) = some (.bool true) →
       isFeatureEnabled (some c) p = true)
    ∧ (∀ (c t cur : JVal) (p part : String) (pre post : List String),
       getProp c "feature-toggles" = some t → truthy t = true →
       splitDot p = pre ++ part :: post →
       reachNode t pre = some cur →
       getProp cur part = some (.bool false) →
       isFeatureEnabled (some c) p = true) := by
  constructor
  · intro c t p h ht hr
    rw [isFeatureEnabled_eq_walk h ht, walkToggles_of_reach _ t _ hr]
    rfl
  · intro c t cur p part pre post h ht hsplit hr hfalse
    rw [isFeatureEnabled_eq_walk h ht, hsplit, walkToggles_append pre t cur hr]
    simp [walkToggles, hfalse, truthy]

/-- Witness for C6 amended: a bare `true` leaf resolves to `true`, and a
tree mapping `darkmode` to the bare boolean `false` also resolves to
`true`. -/
theorem C6_amended_witness :
    isFeatureEnabled
      (some (.obj [("feature-toggles", .obj [("lightmode", .bool true)])]))
      "lightmode" = true
    ∧ isFeatureEnabled
        (some (.obj [("feature-toggles", .obj [("darkmode", .bool false)])]))
        "darkmode" = true :=
  ⟨C6_amended_bare_booleans.1
     (.obj [("feature-toggles", .obj [("lightmode", .bool true)])])
     (.obj [("lightmode", .bool true)]) "lightmode" rfl rfl rfl,
   C6_amended_bare_booleans.2
     (.obj [("feature-toggles", .obj [("darkmode", .bool false)])])
     (.obj [("darkmode", .bool false)]) (.obj [("darkmode", .bool false)])
     "darkmode" "darkmode" [] [] rfl rfl rfl rfl rfl⟩

/-- A toggle section whose `services-page` element only holds nested
toggles, as fed to `parseFeatureToggles`. -/
def servicesToggleElem : Elem :=
  .mk "feature-toggles" []
    [.mk "services-page" [] [.mk "service-cards" [("enabled", "true")] [] ""] ""] ""

/-- C10: a toggle path ending at an interior group node — an object with
child toggles but no `enabled` field — resolves to `false`, not the
default `true`; in particular `services-page` in the fallback
configuration, and in a tree produced by `parseFeatureToggles` from a
nested toggle section, resolves to `false`. -/
theorem C10_interior_node_is_disabled :
    (∀ (c t : JVal) (p : String) (fs : List (String × JVal)),
       getProp c "feature-toggles" = some t → truthy t = true →
       reachNode t (splitDot p) = some (.obj fs) →
       lookupField fs "enabled" = none →
       isFeatureEnabled (some c) p = false)
    ∧ isFeatureEnabled (some getFallbackConfig) "services-page" = false
    ∧ isFeatureEnabled
        (some (.obj [("feature-toggles",
          parseFeatureToggles (some servicesToggleElem))]))
        "services-page" = false := by
  refine ⟨?_, rfl, ?_⟩
  · intro c t p fs h ht hr hl
    rw [isFeatureEnabled_eq_walk h ht, walkToggles_of_reach _ t _ hr]
    simp [evalToggleNode, hl, jsEqTrueLit]
  · have hp : parseFeatureToggles (some servicesToggleElem) =
        .obj [("services-page",
          .obj [("service-cards", .obj [("enabled", .bool true)])])] := by
      simp [parseFeatureToggles, parseToggleNode, parseToggleChildren,
        servicesToggleElem, Elem.children, Elem.tag, Elem.getAttribute,
        Elem.getAttribute.go, Elem.attrs, setField]
    rw [hp]
    rfl

/-- Witness for C10: the general interior-node part applied to a concrete
two-level tree. -/
theorem C10_witness :
    isFeatureEnabled
      (some (.obj [("feature-toggles",
        .obj [("gallery-page", .obj [("lightbox", fbOn)])])]))
      "gallery-page" = false :=
  C10_interior_node_is_disabled.1
    (.obj [("feature-toggles", .obj [("gallery-page", .obj [("lightbox", fbOn)])])])
    (.obj [("gallery-page", .obj [("lightbox", fbOn)])]) "gallery-page"
    [("lightbox", fbOn)] rfl rfl rfl rfl

/-- Counterexample to C4: the claim says list accessors return `[]` when
the key is absent, but `getServices` on a configuration without a
`services` key returns `[services || {}]`, i.e. the one-element array
`[{}]`, not the empty array. -/
theorem C4_counterexample :
    getServices (some (.obj [])) ≠ .arr [] := by
  simp [getServices, optChain, getProp, lookupField, jsOrDefault]

/-- C4 amended: every accessor of the surface is total by construction
(each is a total function; no exception paths exist) and on an absent
key/path returns: `{}` for the record accessors, the key or path itself
for the UI-string accessors, `""` for templates, and `true` for toggles —
but the three list accessors (`getServices`, `getTestimonials`,
`getAccreditations`) return the one-element array `[{}]` rather than
`[]`. -/
theorem C4_amended_accessor_defaults :
    (∀ c : Option JVal, optChain c "company" = none → getCompany c = .obj [])
    ∧ (∀ c : Option JVal, optChain c "services" = none →
        getServices c = .arr [.obj []])
    ∧ (∀ c : Option JVal, optChain c "testimonials" = none →
        getTestimonials c = .arr [.obj []])
    ∧ (∀ c : Option JVal, optChain c "accreditations" = none →
        getAccreditations c = .arr [.obj []])
    ∧ (∀ (c : Option JVal) (name : String),
        optChain (optChain c "pages") name = none → getPageConfig c name = .obj [])
    ∧ (∀ (c : Option JVal) (name : String),
        optChain (optChain c "forms") name = none → getFormConfig c name = .obj [])
    ∧ (∀ (c : Option JVal) (key : String),
        optChain (optChain (optChain c "ui") "buttons") key = none →
        getButtonText c key = .str key)
    ∧ (∀ (c : Option JVal) (p : String),
        optChain (optChain c "ui") "messages" = none → getMessage c p = .str p)
    ∧ (∀ (c : Option JVal) (key : String),
        optChain (optChain (optChain c "ui") "labels") key = none →
        getLabel c key = .str key)
    ∧ (∀ (c : Option JVal) (name : String) (i : Nat),
        getTemplate c name i = .str "")
    ∧ (∀ (c : Option JVal) (p : String),
        optChain c "feature-toggles" = none → isFeatureEnabled c p = true) := by
  refine ⟨?_, ?_, ?_, ?_, ?_, ?_, ?_, ?_, ?_, fun c n i => rfl, ?_⟩
  · intro c h; simp [getCompany, h, jsOrDefault]
  · intro c h; simp [getServices, h, jsOrDefault]
  · intro c h; simp [getTestimonials, h, jsOrDefault]
  · intro c h; simp [getAccreditations, h, jsOrDefault]
  · intro c name h; simp [getPageConfig, h, jsOrDefault]
  · intro c name h; simp [getFormConfig, h, jsOrDefault]
  · intro c key h; simp [getButtonText, h, jsOrDefault]
  · intro c p h; rw [getMessage, h]; exact getMessageLoop_none _ p
  · intro c key h; simp [getLabel, h, jsOrDefault]
  · intro c p h
    cases c with
    | none => rfl
    | some v => exact isFeatureEnabled_of_toggles_none p h

/-- Witness for C4 amended: all eleven accessors evaluated on a loaded
but sectionless configuration (and a `null` config for the toggle
default). -/
theorem C4_amended_witness :
    getCompany (some (.obj [])) = .obj []
    ∧ getServices (some (.obj [])) = .arr [.obj []]
    ∧ getTestimonials (some (.obj [])) = .arr [.obj []]
    ∧ getAccreditations (some (.obj [])) = .arr [.obj []]
    ∧ getPageConfig (some (.obj [])) "index" = .obj []
    ∧ getFormConfig (some (.obj [])) "contact-form" = .obj []
    ∧ getButtonText (some (.obj [])) "get-quote" = .str "get-quote"
    ∧ getMessage (some (.obj [])) "error.general" = .str "error.general"
    ∧ getLabel (some (.obj [])) "call-us" = .str "call-us"
    ∧ getTemplate (some (.obj [])) "service-card" 0 = .str ""
    ∧ isFeatureEnabled (some (.obj [])) "chatbot" = true :=
  ⟨C4_amended_accessor_defaults.1 (some (.obj [])) rfl,
   C4_amended_accessor_defaults.2.1 (some (.obj [])) rfl,
   C4_amended_accessor_defaults.2.2.1 (some (.obj [])) rfl,
   C4_amended_accessor_defaults.2.2.2.1 (some (.obj [])) rfl,
   C4_amended_accessor_defaults.2.2.2.2.1 (some (.obj [])) "index" rfl,
   C4_amended_accessor_defaults.2.2.2.2.2.1 (some (.obj [])) "contact-form" rfl,
   C4_amended_accessor_defaults.2.2.2.2.2.2.1 (some (.obj [])) "get-quote" rfl,
   C4_amended_accessor_defaults.2.2.2.2.2.2.2.1 (some (.obj [])) "error.general" rfl,
   C4_amended_accessor_defaults.2.2.2.2.2.2.2.2.1 (some (.obj [])) "call-us" rfl,
   C4_amended_accessor_defaults.2.2.2.2.2.2.2.2.2.1 (some (.obj [])) "service-card" 0,
   C4_amended_accessor_defaults.2.2.2.2.2.2.2.2.2.2 (some (.obj [])) "chatbot" rfl⟩

/-- C7: once a call has settled with a (truthy) configuration — `loaded`
set and `config` non-null — every further `loadConfig` call returns that
same configuration, leaves the state untouched, and performs no effect
at all (no fetch, no parse, no style application). -/
theorem C7_loadConfig_memoized :
    ∀ (env : Env) (input : XMLLoadInput) (s : ParserState) (c : JVal),
      s.loaded = true → s.config = some c → truthy c = true →
      loadConfig env input s = (c, s, []) := by
  intro env input s c h1 h2 h3
  simp [loadConfig, configTruthy, h1, h2, h3]

/-- Witness for C7: a state already loaded with the fallback
configuration answers a second call from the cache. -/
theorem C7_witness :
    loadConfig ⟨none⟩ .fetchReject ⟨some getFallbackConfig, true, false⟩ =
      (getFallbackConfig, ⟨some getFallbackConfig, true, false⟩, []) :=
  C7_loadConfig_memoized ⟨none⟩ .fetchReject
    ⟨some getFallbackConfig, true, false⟩ getFallbackConfig rfl rfl rfl

/-- The root element of a well-formed document with no known sections. -/
def emptyDocRoot : Elem := .mk "site-config" [] [] ""

/-- What `parseXMLToObject` produces for `emptyDocRoot`: every section at
its absent-default. -/
def emptyParsedConfig : JVal :=
  .obj [("feature-toggles", .obj []), ("design", .obj []), ("top-bar", .obj []),
        ("hero-slider", .obj []), ("company", .obj []), ("branding", .obj []),
        ("services", .arr []), ("accreditations", .arr []), ("gallery", .obj []),
        ("testimonials", .arr []), ("chatbot", .obj []), ("calendar", .obj []),
        ("seo", .obj []), ("pages", .obj []), ("ui", .obj []), ("forms", .obj []),
        ("business-policies", .obj []), ("service-areas", .obj [])]

/-- Parsing the sectionless document succeeds with all defaults. -/
lemma parseXMLToObject_emptyDocRoot :
    parseXMLToObject emptyDocRoot = .ok emptyParsedConfig := by
  simp [parseXMLToObject, emptyDocRoot, emptyParsedConfig, Elem.querySelector,
    Elem.children, querySelectorList, parseFeatureToggles, parseDesign,
    parseTopBar, parseHeroSlider, parseCompanyInfo, parseBranding,
    parseServices, parseAccreditations, parseGallery, parseTestimonials,
    parseChatbot, parseCalendar, parseSEO, parsePages, parseUI, parseForms,
    parseBusinessPolicies, parseServiceAreas, pagesLoop, formsLoop,
    Elem.querySelectorAll, querySelectorAllList]

/-- Counterexample to C8: the claim says all three load paths apply
styles before resolving, but a fresh load whose fetch rejects (the
fallback path) resolves with an effect trace containing no
style-application invocation at all — the `catch` branch of
`loadFromXML` returns the fallback configuration without calling
`applyBrandingStyles`/`applyDesignStyles`. -/
theorem C8_counterexample :
    hasStyleEffect (loadConfig ⟨none⟩ .fetchReject initialState).2.2 = false := by
  decide

/-- C8 amended: the compiled and live-parse paths invoke a
style-application routine before their promise resolves (all listed
effects precede resolution by construction); the fallback path resolves
with only the failed fetch in its trace and applies no styles. -/
theorem C8_amended_styles_by_path :
    (∀ (cc : CompiledConfig) (input : XMLLoadInput) (s : ParserState),
       cc.loaded = true → ¬(s.loaded = true ∧ configTruthy s.config = true) →
       hasStyleEffect (loadConfig ⟨some cc⟩ input s).2.2 = true)
    ∧ (∀ (input : XMLLoadInput) (s : ParserState) (cfg : JVal),
       ¬(s.loaded = true ∧ configTruthy s.config = true) →
       fetchAndParse input = .ok cfg →
       hasStyleEffect (loadConfig ⟨none⟩ input s).2.2 = true)
    ∧ (∀ (input : XMLLoadInput) (s : ParserState) (msg : String),
       ¬(s.loaded = true ∧ configTruthy s.config = true) →
       fetchAndParse input = .error msg →
       (loadConfig ⟨none⟩ input s).2.2 = [.fetch]) := by
  refine ⟨?_, ?_, ?_⟩
  · intro cc input s hcc hguard
    simp [loadConfig, hguard, hcc, hasStyleEffect]
  · intro input s cfg hguard hok
    simp [loadConfig, hguard, loadFromXML, loadFromXMLResolve, hok, hasStyleEffect]
  · intro input s msg hguard herr
    simp [loadConfig, hguard, loadFromXML, loadFromXMLResolve, herr]

/-- Witness for C8 amended: a loaded compiled artifact, a well-formed
sectionless document, and a rejected fetch, all from the initial state. -/
theorem C8_amended_witness :
    hasStyleEffect (loadConfig ⟨some ⟨true, .obj []⟩⟩ .fetchReject
      initialState).2.2 = true
    ∧ hasStyleEffect (loadConfig ⟨none⟩ (.wellFormed emptyDocRoot)
        initialState).2.2 = true
    ∧ (loadConfig ⟨none⟩ .fetchReject initialState).2.2 = [.fetch] :=
  ⟨C8_amended_styles_by_path.1 ⟨true, .obj []⟩ .fetchReject initialState rfl
     (by decide),
   C8_amended_styles_by_path.2.1 (.wellFormed emptyDocRoot) initialState
     emptyParsedConfig (by decide) parseXMLToObject_emptyDocRoot,
   C8_amended_styles_by_path.2.2 .fetchReject initialState "fetch rejected"
     (by decide) rfl⟩

/-- Counterexample to C9: two `loadConfig()` calls issued before the
first settles, on a fresh state with no compiled artifact and a
well-formed document, do not perform exactly one fetch — the in-flight
promise is not cached, both calls pass the memoization guard, and two
fetches occur. -/
theorem C9_counterexample :
    ¬ (countFetches (concurrentLoadConfig ⟨none⟩ (.wellFormed emptyDocRoot)
        (.wellFormed emptyDocRoot) initialState).2.2 = 1) := by
  have h : concurrentLoadConfig ⟨none⟩ (.wellFormed emptyDocRoot)
      (.wellFormed emptyDocRoot) initialState =
      ((emptyParsedConfig, emptyParsedConfig),
       { initialState with config := some emptyParsedConfig, loaded := true },
       [.fetch, .fetch, .applyBranding, .applyDesign,
        .applyBranding, .applyDesign]) := by
    simp [concurrentLoadConfig, initialState, configTruthy, loadFromXMLResolve,
      fetchAndParse, parseXMLToObject_emptyDocRoot]
  rw [h]
  decide

/-- C9 amended: the code caches only the settled result, not the
in-flight promise, so two calls racing past the memoization guard each
execute their own fetch (exactly two fetches); only a call arriving
after a previous call has settled performs zero fetches. -/
theorem C9_amended_duplicate_fetch :
    (∀ (inputA inputB : XMLLoadInput) (s : ParserState),
       ¬(s.loaded = true ∧ configTruthy s.config = true) →
       countFetches (concurrentLoadConfig ⟨none⟩ inputA inputB s).2.2 = 2)
    ∧ (∀ (env : Env) (input : XMLLoadInput) (s : ParserState) (c : JVal),
       s.loaded = true → s.config = some c → truthy c = true →
       countFetches (loadConfig env input s).2.2 = 0) := by
  constructor
  · intro inputA inputB s hguard
    simp [concurrentLoadConfig, hguard, countFetches, List.count_append]
    have hA := countFetches_resolve inputA
    have hB := countFetches_resolve inputB
    simp [countFetches] at hA hB
    cases hA' : loadFromXMLResolve inputA with
    | mk rA esA =>
        cases hB' : loadFromXMLResolve inputB with
        | mk rB esB =>
            rw [hA'] at hA
            rw [hB'] at hB
            simp at hA hB
            simp [hA, hB]
  · intro env input s c h1 h2 h3
    simp [loadConfig, configTruthy, h1, h2, h3, countFetches]

/-- Witness for C9 amended: two concurrent calls against an unreachable
server still fetch twice; a later call on the settled state fetches
zero times. -/
theorem C9_amended_witness :
    countFetches (concurrentLoadConfig ⟨none⟩ (.httpError 500) (.httpError 500)
      initialState).2.2 = 2
    ∧ countFetches (loadConfig ⟨none⟩ (.httpError 500)
        ⟨some getFallbackConfig, true, false⟩).2.2 = 0 :=
  ⟨C9_amended_duplicate_fetch.1 (.httpError 500) (.httpError 500) initialState
     (by decide),
   C9_amended_duplicate_fetch.2 ⟨none⟩ (.httpError 500)
     ⟨some getFallbackConfig, true, false⟩ getFallbackConfig rfl rfl rfl⟩

/-- C3: when the fetch rejects or the fetched content carries a
parser-reported syntax error, `loadFromXML` (and `loadConfig` without a
compiled artifact) still resolves — the embedding returns a plain value,
never an `Except.error`, because every throw inside the `try` block
(visible as the `Except.error` of `fetchAndParse`) is caught — and the
resolution value is the hardcoded fallback configuration, which is
non-empty. -/
theorem C3_fallback_guarantee :
    (∀ s : ParserState, (loadFromXML .fetchReject s).1 = getFallbackConfig)
    ∧ (∀ (msg : String) (s : ParserState),
        (loadFromXML (.parseErrorDoc msg) s).1 = getFallbackConfig)
    ∧ (∀ msg : String, ∃ e, fetchAndParse (.parseErrorDoc msg) = .error e)
    ∧ (loadConfig ⟨none⟩ .fetchReject initialState).1 = getFallbackConfig
    ∧ (∀ msg : String,
        (loadConfig ⟨none⟩ (.parseErrorDoc msg) initialState).1 = getFallbackConfig)
    ∧ getFallbackConfig ≠ .obj [] := by
  refine ⟨fun s => rfl, fun msg s => rfl, fun msg => ⟨_, rfl⟩, rfl,
    fun msg => rfl, ?_⟩
  simp [getFallbackConfig]

/-- Witness for C3: both fault injections on the initial state resolve
with the fallback configuration, and the parse error is a thrown
exception inside the `try` block. -/
theorem C3_witness :
    (loadFromXML .fetchReject initialState).1 = getFallbackConfig
    ∧ (loadFromXML (.parseErrorDoc "mismatched tag") initialState).1 =
        getFallbackConfig
    ∧ (∃ e, fetchAndParse (.parseErrorDoc "mismatched tag") = .error e)
    ∧ (∀ msg : String,
        (loadConfig ⟨none⟩ (.parseErrorDoc msg) initialState).1 =
          getFallbackConfig) :=
  ⟨C3_fallback_guarantee.1 initialState,
   C3_fallback_guarantee.2.1 "mismatched tag" initialState,
   C3_fallback_guarantee.2.2.1 "mismatched tag",
   C3_fallback_guarantee.2.2.2.2.1⟩

/-- C2: the generic extractor on a free-form element turns more than one
sibling sharing a tag name into an array of the recursively-parsed
objects in document order (length 3 for three siblings), exactly one
child with a tag into the singular nested object (not a length-1 array),
and a child with no child elements into its trimmed text as a string
leaf. -/
theorem C2_generic_extractor_shapes :
    (∀ (t pt : String) (pa a1 a2 a3 : List (String × String))
       (ps s1 s2 s3 : String) (g1 g2 g3 : Elem) (r1 r2 r3 : List Elem)
       (v1 v2 v3 : JVal),
       parseNestedContent (.mk t a1 (g1 :: r1) s1) = .ok v1 →
       parseNestedContent (.mk t a2 (g2 :: r2) s2) = .ok v2 →
       parseNestedContent (.mk t a3 (g3 :: r3) s3) = .ok v3 →
       parseNestedContent (.mk pt pa
         [.mk t a1 (g1 :: r1) s1, .mk t a2 (g2 :: r2) s2,
          .mk t a3 (g3 :: r3) s3] ps) = .ok (.obj [(t, .arr [v1, v2, v3])]))
    ∧ (∀ (t pt : String) (pa a : List (String × String)) (ps s : String)
       (g : Elem) (r : List Elem) (v : JVal),
       parseNestedContent (.mk t a (g :: r) s) = .ok v →
       parseNestedContent (.mk pt pa [.mk t a (g :: r) s] ps) =
         .ok (.obj [(t, v)]))
    ∧ (∀ (t pt : String) (pa a : List (String × String)) (ps s : String),
       parseNestedContent (.mk pt pa [.mk t a [] s] ps) =
         .ok (.obj [(t, .str (jsTrim s))])) := by
  refine ⟨?_, ?_, ?_⟩
  · intro t pt pa a1 a2 a3 ps s1 s2 s3 g1 g2 g3 r1 r2 r3 v1 v2 v3 h1 h2 h3
    simp [parseNestedContent, pncChildren, Elem.children, Elem.tag,
      lookupField, setField, truthy, h1, h2, h3]
  · intro t pt pa a ps s g r v h
    simp [parseNestedContent, pncChildren, Elem.children, Elem.tag,
      lookupField, setField, truthy, h]
  · intro t pt pa a ps s
    simp [parseNestedContent, pncChildren, Elem.children, Elem.tag,
      lookupField, setField, Elem.textContent, textContentList]

/-- Witness for C2: a section with three `item` siblings (each holding a
nested element) parses to a length-3 array in document order, one such
sibling parses to the singular object, and a childless element parses to
its trimmed text. -/
theorem C2_witness :
    parseNestedContent (.mk "sec" []
      [.mk "item" [] [.mk "x" [] [] "a"] "",
       .mk "item" [] [.mk "x" [] [] "b"] "",
       .mk "item" [] [.mk "x" [] [] "c"] ""] "") =
      .ok (.obj [("item", .arr [.obj [("x", .str "a")],
        .obj [("x", .str "b")], .obj [("x", .str "c")]])])
    ∧ parseNestedContent (.mk "sec" [] [.mk "item" [] [.mk "x" [] [] "a"] ""] "") =
        .ok (.obj [("item", .obj [("x", .str "a")])])
    ∧ parseNestedContent (.mk "sec" [] [.mk "leaf" [] [] " hello "] "") =
        .ok (.obj [("leaf", .str "hello")]) := by
  have hx : ∀ s : String, parseNestedContent (.mk "item" [] [.mk "x" [] [] s] "") =
      .ok (.obj [("x", .str (jsTrim s))]) := by
    intro s
    exact C2_generic_extractor_shapes.2.2 "x" "item" [] [] "" s
  refine ⟨?_, ?_, ?_⟩
  · have h := C2_generic_extractor_shapes.1 "item" "sec" [] [] [] [] ""
      "" "" "" (.mk "x" [] [] "a") (.mk "x" [] [] "b") (.mk "x" [] [] "c")
      [] [] [] (.obj [("x", .str "a")]) (.obj [("x", .str "b")])
      (.obj [("x", .str "c")]) (hx "a") (hx "b") (hx "c")
    simpa using h
  · have h := C2_generic_extractor_shapes.2.1 "item" "sec" [] [] "" ""
      (.mk "x" [] [] "a") [] (.obj [("x", .str "a")]) (hx "a")
    simpa using h
  · have h := C2_generic_extractor_shapes.2.2 "leaf" "sec" [] [] "" " hello "
    simpa using h

end Raiswell
